import Mathlib

/-!
Shallow embedding of the Trade Republic case-study analysis pipeline
(`src/app/page.tsx`, with the typed revision in `src/unnamed/part_000` and
the earlier revision in `src/unnamed/part_001` modelled where they differ).

The pipeline parses three CSV tables (personal, tickets, complaints) and
computes three metrics:
  Q1: mean time-to-solution of closed tickets of German customers created in
      August 2024;
  Q2: percentage of complaints from interest-cohort accounts resolved within
      a 14-day SLA;
  Q3: number of distinct French-cohort accounts owning a complaint and a
      transfer-related ticket.

Modelling conventions:
  * A parsed CSV field is `Field.null` (JavaScript null / undefined, i.e. a
    missing value) or `Field.str s` (a string value).  The free-text and id
    columns the pipeline reads are strings in the data model; numeric
    dynamic-typing of those columns is out of scope.
  * A timestamp column value is modelled by `Ts`: `Ts.none_` is a falsy raw
    value (null, undefined or the empty string), `Ts.invalid` a truthy string
    that `new Date` cannot parse (its `getTime()` is NaN), and
    `Ts.valid ms month year` a truthy string parsing to a date with epoch
    milliseconds `ms`, zero-based month `month` (7 = August) and full year
    `year`.
  * JavaScript numbers are modelled by `JsNum`: either NaN or an exact
    rational (IEEE-754 rounding is not modelled; the millisecond arithmetic
    the pipeline performs is exact at the modelled precision).
  * A JavaScript `Set` built from a list is modelled by the list itself:
    `has` is `List.contains` and `size` is `List.dedup.length` (SameValueZero
    equality coincides with decidable equality on `Field`).
-/

/-- A parsed CSV field value: JavaScript null/undefined, or a string. -/
inductive FieldVal where
  | null
  | str (s : String)
deriving DecidableEq, Repr

/-- JavaScript truthiness of a field value: null/undefined and the empty
string are falsy; every other string is truthy. -/
def FieldVal.truthy : FieldVal → Bool
  | .null => false
  | .str s => !s.isEmpty

/-- JavaScript strict equality `f === s` between a field value and a string
literal: null never equals a string; strings compare by exact,
case-sensitive equality. -/
def fieldEqStr (f : FieldVal) (s : String) : Bool :=
  match f with
  | .null => false
  | .str t => t == s

/-- A timestamp column value as the pipeline observes it. `none_` is a falsy
raw value; `invalid` a truthy but unparsable string; `valid ms month year` a
parsable string with epoch milliseconds `ms`, zero-based `month` and full
`year` (as returned by `getTime`, `getMonth`, `getFullYear`). -/
inductive Ts where
  | none_
  | invalid
  | valid (ms : Int) (month : Nat) (year : Int)
deriving DecidableEq, Repr

/-- JavaScript truthiness of the raw timestamp value. -/
def Ts.truthy : Ts → Bool
  | .none_ => false
  | _ => true

/-- A JavaScript number: NaN or an exact rational. -/
inductive JsNum where
  | nan
  | num (q : ℚ)
deriving DecidableEq, Repr

/-- JavaScript subtraction, propagating NaN. -/
def JsNum.sub : JsNum → JsNum → JsNum
  | .num a, .num b => .num (a - b)
  | _, _ => .nan

/-- JavaScript division by a nonzero numeric constant, propagating NaN. -/
def JsNum.divC : JsNum → ℚ → JsNum
  | .nan, _ => .nan
  | .num a, d => .num (a / d)

/-- `new Date(x).getTime()` on a truthy timestamp value: NaN for an
unparsable string, the epoch milliseconds otherwise.  (The pipeline never
calls this on a falsy value; that case is mapped to NaN for totality.) -/
def Ts.getTime : Ts → JsNum
  | .none_ => .nan
  | .invalid => .nan
  | .valid ms _ _ => .num ms

/-- `calculateTTS(createdAt, solvedAt)` from `src/app/page.tsx` lines 69-74
(identically `src/unnamed/part_000` lines 118-123): returns null when either
raw value is falsy, else `(new Date(solvedAt) - new Date(createdAt)) /
(1000*60*60*24)` — fractional days, NaN when a truthy input is unparsable. -/
def calculateTTS (createdAt solvedAt : Ts) : Option JsNum :=
  if !createdAt.truthy || !solvedAt.truthy then none
  else some ((JsNum.sub solvedAt.getTime createdAt.getTime).divC (1000 * 60 * 60 * 24))

/-- ASCII lower-casing of one character, as `toLowerCase` acts on the
ASCII range (the contact-reason texts the pipeline lower-cases). -/
def charLower (c : Char) : Char :=
  if 'A' ≤ c && c ≤ 'Z' then Char.ofNat (c.toNat + 32) else c

/-- `pat` is a prefix of `l` (character lists). -/
def listPre : List Char → List Char → Bool
  | [], _ => true
  | _ :: _, [] => false
  | a :: as, b :: bs => a == b && listPre as bs

/-- `pat` occurs as a contiguous substring of `l` (character lists),
as JavaScript `String.prototype.includes`. -/
def listSub : List Char → List Char → Bool
  | pat, [] => pat.isEmpty
  | pat, c :: rest => listPre pat (c :: rest) || listSub pat rest

/-- JavaScript `s.toLowerCase().includes(pat)` for a string `s` (the
pattern is already lower-case at every call site of the pipeline). -/
def jsIncludesCI (s pat : String) : Bool := listSub pat.data (s.data.map charLower)

/-- `f?.toLowerCase().includes(pat)` on a nullable field: optional chaining
makes the whole expression undefined (falsy) when the field is null. -/
def fieldContainsCI (f : FieldVal) (pat : String) : Bool :=
  match f with
  | .null => false
  | .str s => jsIncludesCI s pat

/-- A row of the personal table (columns read by the pipeline). -/
structure PersonalRow where
  AUTH_ACCOUNT_ID : FieldVal
  JURISDICTION : FieldVal
deriving DecidableEq, Repr

/-- A row of the tickets table (columns read by the pipeline). -/
structure TicketRow where
  AUTH_ACCOUNT_ID : FieldVal
  CREATED_AT : Ts
  SOLVED_AT : Ts
  STATUS : FieldVal
  CONTACT_REASON_VALUE : FieldVal
deriving DecidableEq, Repr

/-- A row of the complaints table (columns read by the pipeline). -/
structure ComplaintRow where
  AUTH_ACCOUNT_ID : FieldVal
  CREATED_AT : Ts
  SOLVED_AT : Ts
deriving DecidableEq, Repr

/-- `new Set(l).size`: the number of distinct elements of `l`. -/
def jsSetSize (l : List FieldVal) : Nat := l.dedup.length

/-- The cohort built by
`new Set(personal.data.filter(p => p.JURISDICTION === code).map(p => p.AUTH_ACCOUNT_ID))`
(`src/app/page.tsx` lines 112-116 with `code = 'DE'`, lines 161-165 with
`code = 'FR'`), modelled as the underlying element list. -/
def jurisdictionCohort (personal : List PersonalRow) (code : String) : List FieldVal :=
  (personal.filter fun p => fieldEqStr p.JURISDICTION code).map fun p => p.AUTH_ACCOUNT_ID

/-- `germanCustomers` from `src/app/page.tsx` lines 112-116. -/
def germanCustomers (personal : List PersonalRow) : List FieldVal :=
  jurisdictionCohort personal "DE"

/-- `frenchCustomers` from `src/app/page.tsx` lines 161-165. -/
def frenchCustomers (personal : List PersonalRow) : List FieldVal :=
  jurisdictionCohort personal "FR"

/-- `created.getMonth() === 7 && created.getFullYear() === 2024` on the
parsed `CREATED_AT` date (`src/app/page.tsx` line 122): an unparsable date
has NaN month and year, which equal nothing. -/
def isAugust2024 : Ts → Bool
  | .valid _ m y => m == 7 && y == 2024
  | _ => false

/-- The Q1 ticket predicate from `src/app/page.tsx` lines 119-126: reject
falsy `CREATED_AT` or `AUTH_ACCOUNT_ID`, then require August 2024, German
cohort membership and status strictly equal to `'closed'`. -/
def germanAugustCond (german : List FieldVal) (t : TicketRow) : Bool :=
  if !t.CREATED_AT.truthy || !t.AUTH_ACCOUNT_ID.truthy then false
  else isAugust2024 t.CREATED_AT && german.contains t.AUTH_ACCOUNT_ID
    && fieldEqStr t.STATUS "closed"

/-- `germanAugustTickets` from `src/app/page.tsx` lines 119-126. -/
def germanAugustTickets (personal : List PersonalRow) (tickets : List TicketRow) :
    List TicketRow :=
  tickets.filter (germanAugustCond (germanCustomers personal))

/-- `germanAugustTTS` from `src/app/page.tsx` lines 128-130: map each
selected ticket to its TTS and drop the nulls (NaN values remain). -/
def germanAugustTTS (personal : List PersonalRow) (tickets : List TicketRow) :
    List JsNum :=
  ((germanAugustTickets personal tickets).map fun t =>
    calculateTTS t.CREATED_AT t.SOLVED_AT).filterMap id

/-- JavaScript addition, propagating NaN. -/
def JsNum.add : JsNum → JsNum → JsNum
  | .num a, .num b => .num (a + b)
  | _, _ => .nan

/-- `_.mean(l)` (lodash): sum divided by length; NaN on the empty list and
NaN-propagating. -/
def lodashMean (l : List JsNum) : JsNum :=
  if l.length == 0 then .nan
  else (l.foldl JsNum.add (.num 0)).divC l.length

/-- `averageGermanTTS` from `src/app/page.tsx` line 132. -/
def averageGermanTTS (personal : List PersonalRow) (tickets : List TicketRow) : JsNum :=
  lodashMean (germanAugustTTS personal tickets)

/-- `interestTickets` from `src/app/page.tsx` lines 138-142: accountIds of
tickets whose contact reason mentions `interest` (case-insensitively),
modelled as the underlying element list of the JavaScript Set. -/
def interestTickets (tickets : List TicketRow) : List FieldVal :=
  (tickets.filter fun t => fieldContainsCI t.CONTACT_REASON_VALUE "interest").map
    fun t => t.AUTH_ACCOUNT_ID

/-- `interestComplaints` from `src/app/page.tsx` lines 144-145. -/
def interestComplaints (tickets : List TicketRow) (complaints : List ComplaintRow) :
    List ComplaintRow :=
  complaints.filter fun c => (interestTickets tickets).contains c.AUTH_ACCOUNT_ID

/-- JavaScript `x <= 14` where `x : number | null`: null is coerced to `+0`
by the relational operator (so `null <= 14` is true — the Q2 slip of
`src/app/page.tsx` line 151); any comparison with NaN is false. -/
def jsLeNull (x : Option JsNum) (c : ℚ) : Bool :=
  match x with
  | none => decide ((0 : ℚ) ≤ c)
  | some .nan => false
  | some (.num q) => decide (q ≤ c)

/-- `complaintsSLA` from `src/app/page.tsx` lines 147-153: a fold producing
`(total, withinSLA)` with the untyped `tts <= 14` test. -/
def complaintsSLA (cs : List ComplaintRow) : Nat × Nat :=
  cs.foldl
    (fun acc c =>
      let tts := calculateTTS c.CREATED_AT c.SOLVED_AT
      (acc.1 + 1, acc.2 + if jsLeNull tts 14 then 1 else 0))
    (0, 0)

/-- The within-SLA test of the typed revision `src/unnamed/part_000` line
215: `tts !== null && tts <= 14`. -/
def withinSLATyped (tts : Option JsNum) : Bool :=
  match tts with
  | some (.num q) => decide (q ≤ 14)
  | _ => false

/-- `complaintsSLA` as in the typed revision `src/unnamed/part_000` lines
207-215 (explicit null guard before the 14-day comparison). -/
def complaintsSLATyped (cs : List ComplaintRow) : Nat × Nat :=
  cs.foldl
    (fun acc c =>
      let tts := calculateTTS c.CREATED_AT c.SOLVED_AT
      (acc.1 + 1, acc.2 + if withinSLATyped tts then 1 else 0))
    (0, 0)

/-- `slaPercentage = (withinSLA / total) * 100` from `src/app/page.tsx` line
155.  The fold yields `withinSLA = 0` whenever `total = 0`, so the zero
denominator is JavaScript `0/0 = NaN`. -/
def slaPercentage (withinSLA total : Nat) : JsNum :=
  if total == 0 then .nan
  else .num ((withinSLA : ℚ) / total * 100)

/-- `transferTickets` from `src/app/page.tsx` lines 169-172. -/
def transferTickets (french : List FieldVal) (tickets : List TicketRow) :
    List TicketRow :=
  tickets.filter fun t =>
    fieldContainsCI t.CONTACT_REASON_VALUE "transfer" && french.contains t.AUTH_ACCOUNT_ID

/-- `frenchTransferComplaints` from `src/app/page.tsx` lines 176-181,
modelled as the underlying element list of the JavaScript Set. -/
def frenchTransferComplaints (personal : List PersonalRow) (tickets : List TicketRow)
    (complaints : List ComplaintRow) : List FieldVal :=
  ((complaints.filter fun c =>
      (frenchCustomers personal).contains c.AUTH_ACCOUNT_ID).filter fun c =>
    (transferTickets (frenchCustomers personal) tickets).any fun t =>
      t.AUTH_ACCOUNT_ID == c.AUTH_ACCOUNT_ID).map
    fun c => c.AUTH_ACCOUNT_ID

/-- Classification of a progress-log entry. -/
inductive LogType where
  | error
  | success
  | info
deriving DecidableEq, Repr

/-- One progress-log entry as built by `addLog` (`src/app/page.tsx` lines
49-61): a wall-clock timestamp string, the message, and a classification. -/
structure LogEntry where
  timestamp : String
  message : String
  type : LogType
deriving DecidableEq, Repr

/-- The classification computed inside `addLog` (`src/app/page.tsx` lines
57-59): substring matching on the lower-cased message text. -/
def classify (message : String) : LogType :=
  if jsIncludesCI message "error" then .error
  else if jsIncludesCI message "success" then .success
  else .info

/-- Decimal rendering of a non-negative rational with `d` fixed fraction
digits, rounding half up (ties at double precision are not modelled; no
pipeline value hits one). -/
def ratToFixedNonneg (d : Nat) (q : ℚ) : String :=
  let n : Nat := (⌊q * (10 : ℚ) ^ d + 1 / 2⌋).toNat
  let ip := n / 10 ^ d
  let fp := n % 10 ^ d
  let fs := toString fp
  if d == 0 then toString ip
  else toString ip ++ "." ++ String.mk (List.replicate (d - fs.length) '0') ++ fs

/-- JavaScript `x.toFixed(d)`: `"NaN"` for NaN, fixed-point decimal
otherwise. -/
def jsToFixed (d : Nat) (x : JsNum) : String :=
  match x with
  | .nan => "NaN"
  | .num q => if q < 0 then "-" ++ ratToFixedNonneg d (-q) else ratToFixedNonneg d q

/-- One question's entry of the result record set by `setResults`
(`src/app/page.tsx` lines 186-202). -/
structure AnalysisResult where
  value : JsNum
  answer : String
  explanation : String
deriving DecidableEq, Repr

/-- The result record set by `setResults` (`src/app/page.tsx` lines
186-202). -/
structure Results where
  q1 : AnalysisResult
  q2 : AnalysisResult
  q3 : AnalysisResult
deriving DecidableEq, Repr

/-- The values and fixed answer strings stored by `setResults`
(`src/app/page.tsx` lines 186-202): the answer letters and explanations are
constants, independent of the computed values. -/
def analysisResults (personal : List PersonalRow) (tickets : List TicketRow)
    (complaints : List ComplaintRow) : Results :=
  let sla := complaintsSLA (interestComplaints tickets complaints)
  { q1 :=
      { value := averageGermanTTS personal tickets
        answer := "b"
        explanation := "Average TTS for German customers in August was 3.360 days" }
    q2 :=
      { value := slaPercentage sla.2 sla.1
        answer := "b"
        explanation := "67.9% of interest-related complaints were resolved within SLA" }
    q3 :=
      { value := .num (jsSetSize (frenchTransferComplaints personal tickets complaints))
        answer := "b"
        explanation := "5 French customers had complaints related to transfer inquiries" } }

/-- The ordered progress messages emitted by one run of `analyzeData`
(`src/app/page.tsx` lines 76-206), with the interpolated counts and metrics
of that run.  `toLocaleString` digit grouping is rendered as plain decimal
notation. -/
def analysisMsgs (personal : List PersonalRow) (tickets : List TicketRow)
    (complaints : List ComplaintRow) : List String :=
  let nP := toString personal.length
  let nT := toString tickets.length
  let nC := toString complaints.length
  let nG := toString (jsSetSize (germanCustomers personal))
  let nGA := toString (germanAugustTickets personal tickets).length
  let avgS := jsToFixed 3 (averageGermanTTS personal tickets)
  let nIC := toString (interestComplaints tickets complaints).length
  let sla := complaintsSLA (interestComplaints tickets complaints)
  let slaS := jsToFixed 1 (slaPercentage sla.2 sla.1)
  let nF := toString (jsSetSize (frenchCustomers personal))
  let nTT := toString (transferTickets (frenchCustomers personal) tickets).length
  let nFTC := toString (jsSetSize (frenchTransferComplaints personal tickets complaints))
  [ "🚀 Initializing Trade Republic data analysis...",
    "⚙️  Setting up analysis environment...",
    "📊 Starting data ingestion phase...",
    "📥 Reading personal data file...",
    "✓ Successfully parsed " ++ nP ++ " personal records",
    "📥 Reading tickets data file...",
    "✓ Successfully parsed " ++ nT ++ " ticket records",
    "📥 Reading complaints data file...",
    "✓ Successfully parsed " ++ nC ++ " complaint records",
    "🔍 Beginning data analysis phase...",
    "⏳ Analyzing Q1: German customers TTS in August...",
    "└─ Found " ++ nG ++ " German customers",
    "└─ Processed " ++ nGA ++ " German August tickets",
    "└─ Average TTS: " ++ avgS ++ " days",
    "⏳ Analyzing Q2: Interest complaints within SLA...",
    "└─ Found " ++ nIC ++ " interest-related complaints",
    "└─ SLA compliance: " ++ slaS ++ "%",
    "⏳ Analyzing Q3: French transfer complaints...",
    "└─ Found " ++ nF ++ " French customers",
    "└─ Found " ++ nTT ++ " transfer-related tickets",
    "└─ Identified " ++ nFTC ++ " French customers with transfer complaints",
    "✨ Analysis completed successfully!",
    "📊 Generating final report...",
    "✅ Results ready for review" ]

/-- One run of the core of `analyzeData` (`src/app/page.tsx` lines 76-213)
on already-parsed tables.  `clock` gives the wall-clock timestamp string
observed by the `k`-th `addLog` call; each log entry is classified by
`classify` exactly as `addLog` does.  The artificial delays only pace the
display and are not part of the computation. -/
def analyzeData (clock : Nat → String) (personal : List PersonalRow)
    (tickets : List TicketRow) (complaints : List ComplaintRow) :
    Results × List LogEntry :=
  (analysisResults personal tickets complaints,
   (analysisMsgs personal tickets complaints).enum.map fun im =>
     { timestamp := clock im.1, message := im.2, type := classify im.2 })

/-- A constant wall clock for concrete runs. -/
def fixedClock : Nat → String := fun _ => "12:00:00"

/-- An interest-cohort fixture ticket: account `A` filed a ticket whose
contact reason mentions interest. -/
def interestTicketA : TicketRow :=
  { AUTH_ACCOUNT_ID := .str "A", CREATED_AT := .none_, SOLVED_AT := .none_,
    STATUS := .null, CONTACT_REASON_VALUE := .str "Interest rate question" }

/-- A complaint of account `A` with a missing `SOLVED_AT`, hence a null
duration. -/
def nullDurationComplaint : ComplaintRow :=
  { AUTH_ACCOUNT_ID := .str "A", CREATED_AT := Ts.valid 0 7 2024, SOLVED_AT := .none_ }

/-- A personal table whose only row is a German-jurisdiction row carrying
the empty-string accountId. -/
def blankIdPersonal : List PersonalRow :=
  [{ AUTH_ACCOUNT_ID := .str "", JURISDICTION := .str "DE" }]

/-- A closed ticket created in August 2024 whose accountId is the empty
string. -/
def blankIdTicket : TicketRow :=
  { AUTH_ACCOUNT_ID := .str "", CREATED_AT := Ts.valid 0 7 2024, SOLVED_AT := .none_,
    STATUS := .str "closed", CONTACT_REASON_VALUE := .null }

/-- The canonical fixture personal table: `A1` German, `A2` French. -/
def fixturePersonal : List PersonalRow :=
  [{ AUTH_ACCOUNT_ID := .str "A1", JURISDICTION := .str "DE" },
   { AUTH_ACCOUNT_ID := .str "A2", JURISDICTION := .str "FR" }]

/-- The canonical fixture tickets table: one closed German ticket created
2024-08-01T00:00:00Z and solved 2024-08-04T00:00:00Z (3 days later), with an
interest-related contact reason. -/
def fixtureTickets : List TicketRow :=
  [{ AUTH_ACCOUNT_ID := .str "A1",
     CREATED_AT := Ts.valid 1722470400000 7 2024,
     SOLVED_AT := Ts.valid 1722729600000 7 2024,
     STATUS := .str "closed",
     CONTACT_REASON_VALUE := .str "interest rate question" }]

/-- The canonical fixture complaints table: empty. -/
def fixtureComplaints : List ComplaintRow := []

/-- A duplicate of the German row of `fixturePersonal`. -/
def dupRow : PersonalRow :=
  { AUTH_ACCOUNT_ID := .str "A1", JURISDICTION := .str "DE" }

/-- `fieldEqStr` is exact equality with the string constructor. -/
theorem fieldEqStr_eq_true {f : FieldVal} {s : String} :
    fieldEqStr f s = true ↔ f = FieldVal.str s := by
  cases f <;> simp [fieldEqStr]

/-- C1 (code bug in `src/app/page.tsx` lines 147-155): a complaint of an
interest-cohort account whose `SOLVED_AT` is missing has a null duration,
is selected, counts toward the total — and is counted as within SLA,
because the untyped `tts <= 14` coerces null to 0.  The claim (and the
typed revision `src/unnamed/part_000` lines 207-215, shown in the last
conjunct) requires a null duration never to count as within SLA. -/
theorem nullDurationCountedWithinSLA :
    interestComplaints [interestTicketA] [nullDurationComplaint]
      = [nullDurationComplaint] ∧
    calculateTTS nullDurationComplaint.CREATED_AT nullDurationComplaint.SOLVED_AT
      = none ∧
    complaintsSLA [nullDurationComplaint] = (1, 1) ∧
    complaintsSLATyped [nullDurationComplaint] = (1, 0) := by decide

/-- C2 counterexample: a truthy but unparsable `createdAt` is not caught by
the falsiness guard, so `calculateTTS` returns NaN rather than the null the
claim demands for unparsable inputs. -/
theorem calculateTTS_unparsable_not_null :
    calculateTTS Ts.invalid (Ts.valid 0 7 2024) = some JsNum.nan ∧
    calculateTTS Ts.invalid (Ts.valid 0 7 2024) ≠ none := by decide

/-- C2 (amended): `calculateTTS` returns null iff either raw input is
missing (falsy); on two parsable timestamps it returns exactly
`(solvedAt - createdAt)` in fractional days (negative values passed
through); a truthy unparsable timestamp produces NaN, not null. -/
theorem calculateTTS_spec (c s : Ts) :
    (calculateTTS c s = none ↔ (c.truthy = false ∨ s.truthy = false)) ∧
    (∀ (cms : Int) (cmo : Nat) (cy : Int) (sms : Int) (smo : Nat) (sy : Int),
      calculateTTS (Ts.valid cms cmo cy) (Ts.valid sms smo sy)
        = some (JsNum.num (((sms : ℚ) - (cms : ℚ)) / 86400000))) ∧
    (∀ (ms : Int) (mo : Nat) (y : Int),
      calculateTTS Ts.invalid (Ts.valid ms mo y) = some JsNum.nan ∧
      calculateTTS (Ts.valid ms mo y) Ts.invalid = some JsNum.nan) := by
  refine ⟨?_, ?_, ?_⟩
  · cases c <;> cases s <;> simp [calculateTTS, Ts.truthy]
  · intro cms cmo cy sms smo sy
    simp only [calculateTTS, Ts.truthy, Ts.getTime, JsNum.sub, JsNum.divC,
      Bool.not_true, Bool.or_self, Bool.false_or, if_false, ite_false]
    norm_num
  · intro ms mo y
    exact ⟨rfl, rfl⟩

/-- C5 (code bug relative to the design the spec mandates): with no
qualifying Q1 tickets the pipeline silently stores NaN (the lodash mean of
an empty list) as the Q1 metric, with the unchanged canned answer letter —
no `DegenerateAggregateError` condition exists anywhere in the code. -/
theorem q1_empty_mean_silent_nan :
    germanAugustTickets [] [] = [] ∧
    (analyzeData fixedClock [] [] []).1.q1.value = JsNum.nan ∧
    (analyzeData fixedClock [] [] []).1.q1.answer = "b" := by decide

/-- C3 counterexample: the German cohort of `blankIdPersonal` contains the
empty-string accountId, and `blankIdTicket` was created in August 2024 with
status `closed` and that accountId — every condition the claim lists holds —
yet the Q1 filter rejects the ticket, because the empty string is falsy. -/
theorem blankIdTicket_excluded :
    (germanCustomers blankIdPersonal).contains blankIdTicket.AUTH_ACCOUNT_ID = true ∧
    blankIdTicket.CREATED_AT = Ts.valid 0 7 2024 ∧
    blankIdTicket.STATUS = FieldVal.str "closed" ∧
    germanAugustCond (germanCustomers blankIdPersonal) blankIdTicket = false := by
  decide

/-- C3 (amended): the Q1 filter selects a ticket iff its `CREATED_AT` parses
to August 2024, its `AUTH_ACCOUNT_ID` is truthy (non-null and non-empty),
that accountId is in the German cohort, and its `STATUS` is exactly
`closed` (case-sensitive).  A September ticket or an `open` ticket fails
the first or last conjunct and is excluded. -/
theorem germanAugustCond_iff (personal : List PersonalRow) (t : TicketRow) :
    germanAugustCond (germanCustomers personal) t = true ↔
      ((∃ ms : Int, t.CREATED_AT = Ts.valid ms 7 2024) ∧
       t.AUTH_ACCOUNT_ID.truthy = true ∧
       (germanCustomers personal).contains t.AUTH_ACCOUNT_ID = true ∧
       t.STATUS = FieldVal.str "closed") := by
  obtain ⟨id, created, solved, status, reason⟩ := t
  cases hid : id.truthy <;> cases created <;> cases status <;>
    simp [germanAugustCond, isAugust2024, Ts.truthy, fieldEqStr, hid]
  all_goals tauto

/-- C10: a ticket whose `AUTH_ACCOUNT_ID` is null/undefined or the empty
string is rejected by the Q1 filter whatever its other fields are, and every
ticket the Q1 selection keeps has a truthy accountId — so such tickets never
contribute to the Q1 mean. -/
theorem q1_requires_truthy_account (german : List FieldVal) (created solved : Ts)
    (status reason : FieldVal) (personal : List PersonalRow)
    (tickets : List TicketRow) :
    germanAugustCond german ⟨FieldVal.null, created, solved, status, reason⟩ = false ∧
    germanAugustCond german ⟨FieldVal.str "", created, solved, status, reason⟩ = false ∧
    ((germanAugustTickets personal tickets).all fun t =>
      t.AUTH_ACCOUNT_ID.truthy) = true := by
  have hblank : (FieldVal.str "").truthy = false := by decide
  refine ⟨by simp [germanAugustCond, FieldVal.truthy],
          by simp [germanAugustCond, hblank], ?_⟩
  simp only [germanAugustTickets, List.all_eq_true, List.mem_filter]
  rintro t ⟨-, hcond⟩
  cases htr : t.AUTH_ACCOUNT_ID.truthy
  · rw [germanAugustCond, htr] at hcond
    simp at hcond
  · rfl

/-- C8: for fixed input tables the computed result record is identical
across runs, whatever wall-clock timestamps the runs observe, and the whole
progress-log sequence — messages (which carry the cohort sizes, selection
sizes and metrics) and classifications — is identical too; only the
timestamps differ.  Randomness enters only the display pacing, which is
outside the computation. -/
theorem analyzeData_deterministic (clockA clockB : Nat → String)
    (personal : List PersonalRow) (tickets : List TicketRow)
    (complaints : List ComplaintRow) :
    (analyzeData clockA personal tickets complaints).1
      = (analyzeData clockB personal tickets complaints).1 ∧
    ((analyzeData clockA personal tickets complaints).2.map fun e =>
        (e.message, e.type))
      = ((analyzeData clockB personal tickets complaints).2.map fun e =>
        (e.message, e.type)) := by
  refine ⟨rfl, ?_⟩
  simp only [analyzeData, List.map_map]
  rfl

/-- C9: every log entry the pipeline emits carries the classification
computed purely from its message text by substring matching — a message
containing `error` is classified error, otherwise one containing `success`
is classified success, and every other message is classified info —
independent of the control flow that produced the message. -/
theorem log_classification_pure (clock : Nat → String)
    (personal : List PersonalRow) (tickets : List TicketRow)
    (complaints : List ComplaintRow) :
    ((analyzeData clock personal tickets complaints).2.all fun e =>
      e.type == (if jsIncludesCI e.message "error" then LogType.error
                 else if jsIncludesCI e.message "success" then LogType.success
                 else LogType.info)) = true := by
  simp only [analyzeData, List.all_eq_true]
  intro e he
  obtain ⟨im, -, rfl⟩ := List.mem_map.mp he
  simp [classify]

/-- C6 (code bug relative to the design the spec mandates): on the canonical
fixture no complaint comes from an interest-cohort account (`total = 0`), and
the pipeline silently stores the NaN of the `0/0` ratio as the Q2 value with
the unchanged canned answer and explanation — not a reported
degenerate/not-computable case.  The Q1 and Q3 conjuncts check the fixture's
reference values (3 days, 0 French transfer complainants). -/
theorem q2_zero_total_silent_nan :
    complaintsSLA (interestComplaints fixtureTickets fixtureComplaints) = (0, 0) ∧
    (analyzeData fixedClock fixturePersonal fixtureTickets fixtureComplaints).1.q2.value
      = JsNum.nan ∧
    (analyzeData fixedClock fixturePersonal fixtureTickets fixtureComplaints).1.q2.answer
      = "b" ∧
    (analyzeData fixedClock fixturePersonal fixtureTickets fixtureComplaints).1.q1.value
      = JsNum.num 3 ∧
    (analyzeData fixedClock fixturePersonal fixtureTickets fixtureComplaints).1.q3.value
      = JsNum.num 0 := by
  refine ⟨by decide, by decide, by decide, ?_, ?_⟩
  · show (analysisResults fixturePersonal fixtureTickets fixtureComplaints).q1.value
        = JsNum.num 3
    have h1 : germanAugustTickets fixturePersonal fixtureTickets = fixtureTickets := by
      decide
    simp only [analysisResults, averageGermanTTS, germanAugustTTS, h1]
    simp [fixtureTickets, calculateTTS, Ts.truthy, Ts.getTime, JsNum.sub, JsNum.divC,
      lodashMean, JsNum.add]
    norm_num
  · show (analysisResults fixturePersonal fixtureTickets fixtureComplaints).q3.value
        = JsNum.num 0
    have h3 : frenchTransferComplaints fixturePersonal fixtureTickets fixtureComplaints
        = [] := by decide
    simp [analysisResults, h3, jsSetSize]

/-- C7: membership in a jurisdiction cohort holds exactly for the
accountIds of rows whose jurisdiction equals the code by exact,
case-sensitive string equality (so a case-changed id or code is a different
string and does not match), and appending a duplicate of a row already in
the table changes neither the cohort's members nor its size. -/
theorem jurisdictionCohort_spec (personal : List PersonalRow) (code : String)
    (r : PersonalRow) :
    (∀ x : FieldVal, x ∈ (jurisdictionCohort personal code).toFinset ↔
      ∃ p ∈ personal, p.JURISDICTION = FieldVal.str code ∧ p.AUTH_ACCOUNT_ID = x) ∧
    (r ∈ personal →
      (jurisdictionCohort (personal ++ [r]) code).toFinset
        = (jurisdictionCohort personal code).toFinset ∧
      jsSetSize (jurisdictionCohort (personal ++ [r]) code)
        = jsSetSize (jurisdictionCohort personal code)) := by
  have hmem : ∀ (l : List PersonalRow) (x : FieldVal),
      x ∈ (jurisdictionCohort l code).toFinset ↔
        ∃ p ∈ l, p.JURISDICTION = FieldVal.str code ∧ p.AUTH_ACCOUNT_ID = x := by
    intro l x
    simp [jurisdictionCohort, List.mem_filter, fieldEqStr_eq_true]
    tauto
  have hfin : r ∈ personal →
      (jurisdictionCohort (personal ++ [r]) code).toFinset
        = (jurisdictionCohort personal code).toFinset := by
    intro hr
    ext x
    rw [hmem, hmem]
    constructor
    · rintro ⟨p, hp, hrest⟩
      rcases List.mem_append.mp hp with h | h
      · exact ⟨p, h, hrest⟩
      · exact ⟨p, by rw [List.mem_singleton.mp h]; exact hr, hrest⟩
    · rintro ⟨p, hp, hrest⟩
      exact ⟨p, List.mem_append.mpr (Or.inl hp), hrest⟩
  refine ⟨hmem personal, fun hr => ⟨hfin hr, ?_⟩⟩
  rw [jsSetSize, jsSetSize, ← List.card_toFinset, ← List.card_toFinset, hfin hr]

/-- C7 witness: duplicating the German row of the canonical fixture table
leaves the German cohort's members and size unchanged. -/
theorem jurisdictionCohort_spec_witness :
    (jurisdictionCohort (fixturePersonal ++ [dupRow]) "DE").toFinset
      = (jurisdictionCohort fixturePersonal "DE").toFinset ∧
    jsSetSize (jurisdictionCohort (fixturePersonal ++ [dupRow]) "DE")
      = jsSetSize (jurisdictionCohort fixturePersonal "DE") :=
  (jurisdictionCohort_spec fixturePersonal "DE" dupRow).2 (by decide)

/-- The Q3 membership characterization the claim states: the accountId is in
the French cohort and owns at least one ticket whose contact reason contains
`transfer` case-insensitively (complaint ownership is the remaining
condition; the theorem ranges over the distinct complaint owners). -/
def q3ClaimPred (personal : List PersonalRow) (tickets : List TicketRow)
    (x : FieldVal) : Bool :=
  (frenchCustomers personal).contains x &&
    tickets.any fun t =>
      fieldContainsCI t.CONTACT_REASON_VALUE "transfer" && t.AUTH_ACCOUNT_ID == x

/-- C4: the Q3 result — the size of the `frenchTransferComplaints` set —
equals the number of distinct accountIds that own at least one complaint,
are in the French cohort, and own at least one transfer-reason ticket; the
join is on accountId only, so no timing correlation is involved, and a
French complaint owner with no transfer ticket is not counted. -/
theorem frenchTransferComplaints_count (personal : List PersonalRow)
    (tickets : List TicketRow) (complaints : List ComplaintRow) :
    jsSetSize (frenchTransferComplaints personal tickets complaints) =
      (((complaints.map fun c => c.AUTH_ACCOUNT_ID).toFinset).filter
        (fun x => q3ClaimPred personal tickets x = true)).card := by
  rw [jsSetSize, ← List.card_toFinset]
  congr 1
  ext x
  simp only [List.mem_toFinset, Finset.mem_filter, frenchTransferComplaints,
    q3ClaimPred, transferTickets, List.mem_map, List.mem_filter,
    List.any_eq_true, Bool.and_eq_true, beq_iff_eq]
  constructor
  · rintro ⟨c, ⟨⟨hc, hcf⟩, t, ⟨ht, htr, htf⟩, hid⟩, rfl⟩
    exact ⟨⟨c, hc, rfl⟩, hcf, t, ht, htr, hid⟩
  · rintro ⟨⟨c, hc, hcx⟩, hcf, t, ht, htr, hid⟩
    subst hcx
    exact ⟨c, ⟨⟨hc, hcf⟩, t, ⟨ht, htr, by rw [hid]; exact hcf⟩, hid⟩, rfl⟩
